import Mathlib

/-!
Shallow embedding of the `/analyze` request handler of `src/app.py`
(MedPanel Flask API).

Modelling conventions:
* JSON / Python values are the inductive `Json` below.  Python dicts are
  association lists with unique keys (the parser inserts with
  overwrite-in-place, matching `dict` semantics); numbers keep their
  source lexeme (no claim compares numerals across lexemes).
* External collaborators are parameters: the engine call
  `run_medpanel(image, notes)` is an `Except PyExc EngineOut` argument
  (per the spec interface it yields `final_report` and `panel_trace`),
  and base64+PIL image decoding is an oracle `String → Bool` applied to
  the base64 payload after the data-URL split.
* Python exceptions other than `json.JSONDecodeError` propagate to the
  outer `except Exception` handler; they are modelled as `PyExc` with a
  faithful class name.  The human-readable text of such internal
  exception messages is abbreviated (CPython wording differs); only the
  class name and status are relied upon by theorems.
* `json.loads` is modelled by `json_loads`, a recursive-descent parser
  of the JSON grammar as accepted by Python's default decoder
  (strict strings, no trailing commas, `NaN`/`Infinity`/`-Infinity`
  accepted, `\uXXXX` escapes; lone surrogates, which Lean's `Char`
  cannot represent, are mapped to the default character).
-/

/-- JSON / Python values.  `num` stores the numeric lexeme. -/
inductive Json where
  | null : Json
  | bool (b : Bool) : Json
  | num (lexeme : String) : Json
  | str (s : String) : Json
  | arr (elems : List Json) : Json
  | obj (fields : List (String × Json)) : Json

/-- A Python exception: class name and message. -/
structure PyExc where
  name : String
  msg : String

/-- The engine's result dict: `result["final_report"]`, `result["panel_trace"]`. -/
structure EngineOut where
  final_report : Json
  panel_trace : Json

/-! ## Python string primitives (on `List Char`) -/

/-- Characters stripped by Python `str.strip()` (the `str.isspace` set). -/
def isPyWs (c : Char) : Bool :=
  let n := c.toNat
  (9 ≤ n && n ≤ 13) || (28 ≤ n && n ≤ 32) || n = 0x85 || n = 0xA0 ||
  n = 0x1680 || (0x2000 ≤ n && n ≤ 0x200A) || n = 0x2028 || n = 0x2029 ||
  n = 0x202F || n = 0x205F || n = 0x3000

/-- Python `s.strip()`. -/
def pyStrip (l : List Char) : List Char :=
  ((l.dropWhile isPyWs).reverse.dropWhile isPyWs).reverse

/-- Python `s.rfind(pat)` specialised to the two-character pattern `",`:
index of the last occurrence, `none` when absent (Python returns `-1`). -/
def rfindQC : List Char → Option Nat
  | c1 :: c2 :: rest =>
    match rfindQC (c2 :: rest) with
    | some j => some (j + 1)
    | none => if c1 = '"' && c2 = ',' then some 0 else none
  | _ => none

/-! ## The JSON parser (`json.loads` with Python defaults) -/

/-- JSON inter-token whitespace (Python's decoder skips only these). -/
def skipWs : List Char → List Char
  | c :: rest =>
    if c = ' ' || c = '\t' || c = '\n' || c = '\r' then skipWs rest else c :: rest
  | [] => []

def hexVal (c : Char) : Option Nat :=
  if '0' ≤ c ∧ c ≤ '9' then some (c.toNat - '0'.toNat)
  else if 'a' ≤ c ∧ c ≤ 'f' then some (c.toNat - 'a'.toNat + 10)
  else if 'A' ≤ c ∧ c ≤ 'F' then some (c.toNat - 'A'.toNat + 10)
  else none

def parseHex4 : List Char → Option (Nat × List Char)
  | a :: b :: c :: d :: rest => do
    let va ← hexVal a
    let vb ← hexVal b
    let vc ← hexVal c
    let vd ← hexVal d
    pure (((va * 16 + vb) * 16 + vc) * 16 + vd, rest)
  | _ => none

/-- Body of a JSON string after the opening quote: returns the decoded
characters and the input remaining after the closing quote.  Strict mode:
unescaped control characters are rejected; `\uXXXX` pairs of surrogates
combine; a lone surrogate (representable in a Python `str` but not in a
Lean `Char`) degrades to the default character. -/
def parseStrBody : Nat → List Char → Option (List Char × List Char)
  | 0, _ => none
  | _ + 1, [] => none
  | _ + 1, '"' :: rest => some ([], rest)
  | fuel + 1, '\\' :: rest =>
    match rest with
    | 'u' :: r2 =>
      match parseHex4 r2 with
      | none => none
      | some (n, r3) =>
        if 0xD800 ≤ n ∧ n < 0xDC00 then
          match r3 with
          | '\\' :: 'u' :: r4 =>
            match parseHex4 r4 with
            | some (n2, r5) =>
              if 0xDC00 ≤ n2 ∧ n2 ≤ 0xDFFF then
                match parseStrBody fuel r5 with
                | some (cs, rest2) =>
                  some (Char.ofNat (0x10000 + (n - 0xD800) * 0x400 + (n2 - 0xDC00)) :: cs, rest2)
                | none => none
              else
                match parseStrBody fuel ('\\' :: 'u' :: r4) with
                | some (cs, rest2) => some (Char.ofNat n :: cs, rest2)
                | none => none
            | none =>
              match parseStrBody fuel r3 with
              | some (cs, rest2) => some (Char.ofNat n :: cs, rest2)
              | none => none
          | _ =>
            match parseStrBody fuel r3 with
            | some (cs, rest2) => some (Char.ofNat n :: cs, rest2)
            | none => none
        else
          match parseStrBody fuel r3 with
          | some (cs, rest2) => some (Char.ofNat n :: cs, rest2)
          | none => none
    | e :: r2 =>
      let dec : Option Char :=
        if e = '"' then some '"'
        else if e = '\\' then some '\\'
        else if e = '/' then some '/'
        else if e = 'b' then some '\x08'
        else if e = 'f' then some '\x0c'
        else if e = 'n' then some '\n'
        else if e = 'r' then some '\r'
        else if e = 't' then some '\t'
        else none
      match dec with
      | some c =>
        match parseStrBody fuel r2 with
        | some (cs, rest2) => some (c :: cs, rest2)
        | none => none
      | none => none
    | [] => none
  | fuel + 1, c :: rest =>
    if c.toNat < 0x20 then none
    else
      match parseStrBody fuel rest with
      | some (cs, rest2) => some (c :: cs, rest2)
      | none => none

def digitSpan : List Char → List Char × List Char
  | [] => ([], [])
  | c :: rest =>
    if c.isDigit then
      let (d, r) := digitSpan rest
      (c :: d, r)
    else ([], c :: rest)

/-- JSON number grammar: `-?(0|[1-9][0-9]*)(.[0-9]+)?([eE][+-]?[0-9]+)?`.
Returns the lexeme and the rest. -/
def parseNumber (l : List Char) : Option (List Char × List Char) :=
  let (sign, l1) :=
    match l with
    | '-' :: r => (['-'], r)
    | _ => (([] : List Char), l)
  match l1 with
  | [] => none
  | c :: _ =>
    if ¬ c.isDigit then none
    else
      let (intPart, l2) :=
        match l1 with
        | '0' :: r => (['0'], r)
        | _ => digitSpan l1
      let (fracPart, l3) :=
        match l2 with
        | '.' :: r =>
          match digitSpan r with
          | ([], _) => (none, l2)
          | (d, r2) => (some ('.' :: d), r2)
        | _ => (none, l2)
      match fracPart with
      | none =>
        match l2 with
        | '.' :: _ => none
        | _ =>
          let (expPart, l4) := parseNumberExp l2
          match expPart with
          | none =>
            match l2 with
            | 'e' :: _ => none
            | 'E' :: _ => none
            | _ => some (sign ++ intPart, l2)
          | some e => some (sign ++ intPart ++ e, l4)
      | some f =>
        let (expPart, l4) := parseNumberExp l3
        match expPart with
        | none =>
          match l3 with
          | 'e' :: _ => none
          | 'E' :: _ => none
          | _ => some (sign ++ intPart ++ f, l3)
        | some e => some (sign ++ intPart ++ f ++ e, l4)
where
  parseNumberExp (l : List Char) : Option (List Char) × List Char :=
    match l with
    | e :: r =>
      if e = 'e' ∨ e = 'E' then
        let (sgn, r1) :=
          match r with
          | '+' :: r2 => (['+'], r2)
          | '-' :: r2 => (['-'], r2)
          | _ => (([] : List Char), r)
        match digitSpan r1 with
        | ([], _) => (none, l)
        | (d, r2) => (some (e :: sgn ++ d), r2)
      else (none, l)
    | [] => (none, l)

/-- Insert into a Python dict: overwrite an existing key in place,
otherwise append (`dict` insertion semantics). -/
def insertField : List (String × Json) → String → Json → List (String × Json)
  | [], k, v => [(k, v)]
  | (k1, v1) :: rest, k, v =>
    if k1 = k then (k1, v) :: rest else (k1, v1) :: insertField rest k v

mutual

/-- One JSON value starting at the head of the input (no leading whitespace). -/
def parseValue : Nat → List Char → Option (Json × List Char)
  | 0, _ => none
  | fuel + 1, l =>
    match l with
    | '\x7b' :: r => parseObjBody fuel (skipWs r)
    | '[' :: r => parseArrBody fuel (skipWs r)
    | '"' :: r =>
      match parseStrBody (r.length + 1) r with
      | some (cs, rest) => some (Json.str ⟨cs⟩, rest)
      | none => none
    | 't' :: 'r' :: 'u' :: 'e' :: r => some (Json.bool true, r)
    | 'f' :: 'a' :: 'l' :: 's' :: 'e' :: r => some (Json.bool false, r)
    | 'n' :: 'u' :: 'l' :: 'l' :: r => some (Json.null, r)
    | 'N' :: 'a' :: 'N' :: r => some (Json.num "NaN", r)
    | 'I' :: 'n' :: 'f' :: 'i' :: 'n' :: 'i' :: 't' :: 'y' :: r =>
      some (Json.num "Infinity", r)
    | '-' :: 'I' :: 'n' :: 'f' :: 'i' :: 'n' :: 'i' :: 't' :: 'y' :: r =>
      some (Json.num "-Infinity", r)
    | _ =>
      match parseNumber l with
      | some (lex, rest) => some (Json.num ⟨lex⟩, rest)
      | none => none

/-- Object body after `{` and whitespace. -/
def parseObjBody : Nat → List Char → Option (Json × List Char)
  | 0, _ => none
  | fuel + 1, l =>
    match l with
    | '\x7d' :: r => some (Json.obj [], r)
    | _ => parseMembers fuel l []

/-- One or more `"key": value` members, separated by commas. -/
def parseMembers : Nat → List Char → List (String × Json) → Option (Json × List Char)
  | 0, _, _ => none
  | fuel + 1, l, acc =>
    match l with
    | '"' :: r =>
      match parseStrBody (r.length + 1) r with
      | none => none
      | some (key, r1) =>
        match skipWs r1 with
        | ':' :: r2 =>
          match parseValue fuel (skipWs r2) with
          | none => none
          | some (v, r3) =>
            let acc2 := insertField acc ⟨key⟩ v
            match skipWs r3 with
            | ',' :: r4 => parseMembers fuel (skipWs r4) acc2
            | '\x7d' :: r4 => some (Json.obj acc2, r4)
            | _ => none
        | _ => none
    | _ => none

/-- Array body after `[` and whitespace. -/
def parseArrBody : Nat → List Char → Option (Json × List Char)
  | 0, _ => none
  | fuel + 1, l =>
    match l with
    | ']' :: r => some (Json.arr [], r)
    | _ => parseArrItems fuel l []

/-- One or more array items, separated by commas. -/
def parseArrItems : Nat → List Char → List Json → Option (Json × List Char)
  | 0, _, _ => none
  | fuel + 1, l, acc =>
    match parseValue fuel l with
    | none => none
    | some (v, r) =>
      match skipWs r with
      | ',' :: r2 => parseArrItems fuel (skipWs r2) (acc ++ [v])
      | ']' :: r2 => some (Json.arr (acc ++ [v]), r2)
      | _ => none

end

/-- `json.loads` on a list of characters: parse one value surrounded by
optional whitespace; anything else raises `JSONDecodeError` (`none`).
The fuel `4 * length + 16` dominates the recursion depth (at most a
constant number of fuel decrements per consumed character). -/
def json_loads_list (l : List Char) : Option Json :=
  match parseValue (4 * l.length + 16) (skipWs l) with
  | some (v, rest) => if skipWs rest = [] then some v else none
  | none => none

/-- `json.loads` on a string. -/
def json_loads (s : String) : Option Json :=
  json_loads_list s.data

/-! ## Python dict / truthiness helpers -/

/-- Lookup in a dict (keys are unique, first match). -/
def lookupField : List (String × Json) → String → Option Json
  | [], _ => none
  | (k, v) :: rest, key => if k = key then some v else lookupField rest key

/-- Python `d.get(key, default)`. -/
def getDField (kvs : List (String × Json)) (key : String) (dflt : Json) : Json :=
  match lookupField kvs key with
  | some v => v
  | none => dflt

/-- Remove a key from a dict. -/
def removeField : List (String × Json) → String → List (String × Json)
  | [], _ => []
  | (k1, v1) :: rest, key =>
    if k1 = key then removeField rest key else (k1, v1) :: removeField rest key

/-- Whether a numeric lexeme denotes zero (Python falsiness of a number):
all mantissa digits are `0` (exponent ignored); lexemes with no digits
(`NaN`, `Infinity`) are nonzero. -/
def numIsZero (l : List Char) : Bool :=
  let m := (l.takeWhile (fun c => ¬ (c = 'e' ∨ c = 'E'))).filter Char.isDigit
  ¬ m.isEmpty && m.all (fun c => c = '0')

/-- Python truthiness of a value. -/
def truthy : Json → Bool
  | Json.null => false
  | Json.bool b => b
  | Json.num s => ¬ numIsZero s.data
  | Json.str s => ¬ s.data.isEmpty
  | Json.arr l => ¬ l.isEmpty
  | Json.obj l => ¬ l.isEmpty

/-- Python type name of a value (for exception messages). -/
def pyTypeName : Json → String
  | Json.null => "NoneType"
  | Json.bool _ => "bool"
  | Json.num s => if s.data.any (fun c => c = '.' ∨ c = 'e' ∨ c = 'E' ∨ c = 'n') then "float" else "int"
  | Json.str _ => "str"
  | Json.arr _ => "list"
  | Json.obj _ => "dict"

/-- `AttributeError` raised by `v.attr` on a value lacking the attribute
(message text abbreviated; only the class name is proof-relevant). -/
def attrError (v : Json) (attr : String) : PyExc :=
  ⟨"AttributeError", pyTypeName v ++ " object has no attribute " ++ attr⟩

/-! ## ReportRepair (src/app.py lines 154-172) -/

/-- The truncate-and-close text: `raw[:i+2] + "\n}"` (line 163), where `i`
is the index of the last `",`. -/
def truncClose (l : List Char) (i : Nat) : List Char :=
  l.take (i + 2) ++ ['\n', '\x7d']

/-- Lines 159-163: if `raw.strip()` does not end with `}`, truncate at the
character after the last `",` (when that occurrence starts at a positive
index, `last_complete > 0`) and append `\n}`; otherwise leave unchanged. -/
def cleanRaw (l : List Char) : List Char :=
  if (pyStrip l).getLast? = some '\x7d' then l
  else
    match rfindQC l with
    | some i => if 0 < i then truncClose l i else l
    | none => l

/-- The raw-text wrapper dict `{"raw_response": s}`. -/
def wrapRaw (s : String) : Json :=
  Json.obj [("raw_response", Json.str s)]

/-- Whether a value is the raw-text wrapper shape the repair acts on:
`isinstance(report, dict) and "raw_response" in report` (line 154). -/
def isRawWrapper : Json → Bool
  | Json.obj kvs => (lookupField kvs "raw_response").isSome
  | _ => false

/-- ReportRepair, lines 154-172.  On a dict carrying `raw_response`:
clean the raw text, `json.loads` it; on `JSONDecodeError` keep the
wrapper.  A non-string `raw_response` raises `AttributeError` at
`raw.strip()`, which the `except json.JSONDecodeError` clause does not
catch, so it escapes to the outer handler.  Anything that is not a
`raw_response`-keyed dict passes through unchanged. -/
def repairE (report : Json) : Except PyExc Json :=
  match report with
  | Json.obj kvs =>
    match lookupField kvs "raw_response" with
    | some (Json.str raw) =>
      match json_loads_list (cleanRaw raw.data) with
      | some v => Except.ok v
      | none => Except.ok (Json.obj kvs)
    | some v => Except.error (attrError v "strip")
    | none => Except.ok (Json.obj kvs)
  | r => Except.ok r

/-! ## Image stage (lines 113-138) -/

/-- The data-URL marker `base64,`. -/
def b64marker : List Char := "base64,".data

def containsMarker : List Char → Bool
  | [] => false
  | c :: rest => if b64marker.isPrefixOf (c :: rest) then true else containsMarker rest

/-- Drop everything up to and including the first `base64,` marker. -/
def afterMarker : List Char → List Char
  | [] => []
  | c :: rest => if b64marker.isPrefixOf (c :: rest) then (c :: rest).drop 7 else afterMarker rest

/-- Take up to the next `base64,` marker. -/
def upToMarker : List Char → List Char
  | [] => []
  | c :: rest => if b64marker.isPrefixOf (c :: rest) then [] else c :: upToMarker rest

/-- Python `s.split('base64,')[1]`: the segment between the first marker
and the next one (or the end). -/
def splitB64 (l : List Char) : List Char :=
  upToMarker (afterMarker l)

/-- Lines 113-138.  `none` means the inner `except` returned the 400
"Invalid image format" response; `some b` is the resulting
`image_provided` flag.  A falsy `image` value skips the block entirely.
A truthy non-string raises inside the `try` (`in` / `b64decode`), which
the blanket `except Exception` turns into the 400 as well.  For a truthy
string, the data-URL marker is split off when present and the decode
oracle stands for `base64.b64decode` + `PIL.Image.open(...).convert`. -/
def imageOutcome (kvs : List (String × Json)) (decodeImg : String → Bool) : Option Bool :=
  let imgVal := getDField kvs "image" Json.null
  if truthy imgVal then
    match imgVal with
    | Json.str s =>
      let payload := if containsMarker s.data then splitB64 s.data else s.data
      if decodeImg ⟨payload⟩ then some true else none
    | _ => none
  else some false

/-! ## Response assembly and the handler (lines 93-203) -/

/-- Lines 181-186: the summary dict, with `.get` defaults. -/
def summaryObj (rkvs : List (String × Json)) : Json :=
  Json.obj
    [("diagnosis", getDField rkvs "primary_diagnosis" (Json.str "N/A")),
     ("confidence", getDField rkvs "panel_agreement_score" (Json.str "N/A")),
     ("escalate", getDField rkvs "escalate_to_human" (Json.bool false)),
     ("reason", getDField rkvs "escalation_reason" (Json.str ""))]

/-- Lines 175-187: the success envelope. -/
def successEnvelope (mode : Json) (image_provided : Bool) (report trace summary : Json) : Json :=
  Json.obj
    [("success", Json.bool true),
     ("mode", mode),
     ("image_analyzed", Json.bool image_provided),
     ("report", report),
     ("trace", trace),
     ("summary", summary)]

def notJson400 : Nat × Json :=
  (400, Json.obj
    [("success", Json.bool false),
     ("error", Json.str "Content-Type must be application/json")])

def notesRequired400 : Nat × Json :=
  (400, Json.obj
    [("success", Json.bool false),
     ("error", Json.str "Clinical notes are required"),
     ("message", Json.str "Please provide patient symptoms and clinical information")])

def invalidImage400 : Nat × Json :=
  (400, Json.obj
    [("success", Json.bool false),
     ("error", Json.str "Invalid image format"),
     ("message", Json.str "Please provide a valid base64-encoded image")])

/-- Lines 198-203: the outer `except Exception` response. -/
def errorBody500 (e : PyExc) : Nat × Json :=
  (500, Json.obj
    [("success", Json.bool false),
     ("error", Json.str e.msg),
     ("error_type", Json.str e.name),
     ("message", Json.str "An error occurred during analysis. Please try again.")])

/-- Lines 140-190: mode defaulting, engine call, repair, envelope.
The engine result's report must support `.get` (be a dict) for the
summary (lines 182-185); otherwise `AttributeError` escapes. -/
def afterImage (modeOpt : Option Json) (image_provided : Bool)
    (engine : Except PyExc EngineOut) : Except PyExc (Nat × Json) :=
  match engine with
  | Except.error e => Except.error e
  | Except.ok result =>
    match repairE result.final_report with
    | Except.error e => Except.error e
    | Except.ok (Json.obj rkvs) =>
      Except.ok (200, successEnvelope
        (modeOpt.getD (Json.str (if image_provided then "full" else "text-only")))
        image_provided (Json.obj rkvs) result.panel_trace (summaryObj rkvs))
    | Except.ok other => Except.error (attrError other "get")

/-- Lines 113-140 sequencing: image block, then hand off. -/
def afterNotes (kvs : List (String × Json)) (decodeImg : String → Bool)
    (engine : Except PyExc EngineOut) : Except PyExc (Nat × Json) :=
  match imageOutcome kvs decodeImg with
  | none => Except.ok invalidImage400
  | some image_provided => afterImage (lookupField kvs "mode") image_provided engine

/-- Lines 104-110: `notes = data.get('notes', '').strip()`; empty → 400.
A non-string `notes` value raises `AttributeError` at `.strip()`. -/
def analyzeObj (kvs : List (String × Json)) (decodeImg : String → Bool)
    (engine : Except PyExc EngineOut) : Except PyExc (Nat × Json) :=
  match getDField kvs "notes" (Json.str "") with
  | Json.str notesRaw =>
    if pyStrip notesRaw.data = [] then Except.ok notesRequired400
    else afterNotes kvs decodeImg engine
  | v => Except.error (attrError v "strip")

/-- The `try` block of `analyze` (lines 93-190) for a POST request.
`isJson` models `request.is_json`; `data` is the parsed body
(`request.json`); a non-dict body raises `AttributeError` at
`data.get`. -/
def analyzeTry (isJson : Bool) (data : Json) (decodeImg : String → Bool)
    (engine : Except PyExc EngineOut) : Except PyExc (Nat × Json) :=
  if isJson then
    match data with
    | Json.obj kvs => analyzeObj kvs decodeImg engine
    | v => Except.error (attrError v "get")
  else Except.ok notJson400

/-- The `/analyze` handler (POST): the `try` body with the outer
`except Exception` (lines 192-203) wrapped around it.  Returns
`(HTTP status, JSON body)`. -/
def analyze (isJson : Bool) (data : Json) (decodeImg : String → Bool)
    (engine : Except PyExc EngineOut) : Nat × Json :=
  match analyzeTry isJson data decodeImg engine with
  | Except.ok r => r
  | Except.error e => errorBody500 e

/-- Lookup a key in a response body (JSON object). -/
def envLookup (j : Json) (key : String) : Option Json :=
  match j with
  | Json.obj kvs => lookupField kvs key
  | _ => none

/-- Top-level key list of a JSON object body. -/
def objKeys : Json → List String
  | Json.obj kvs => kvs.map (fun p => p.1)
  | _ => []

/-! ## Helper lemmas -/

theorem repairE_wrapRaw (raw : String) :
    repairE (wrapRaw raw) = Except.ok
      (match json_loads_list (cleanRaw raw.data) with
       | some v => v
       | none => wrapRaw raw) := by
  cases h : json_loads_list (cleanRaw raw.data) with
  | none => simp [repairE, wrapRaw, lookupField, h]
  | some v => simp [repairE, wrapRaw, lookupField, h]

theorem cleanRaw_of_closing (l : List Char) (h : (pyStrip l).getLast? = some '\x7d') :
    cleanRaw l = l := by
  unfold cleanRaw
  rw [if_pos h]

theorem cleanRaw_of_marker (l : List Char) (i : Nat)
    (h : (pyStrip l).getLast? ≠ some '\x7d') (hq : rfindQC l = some i) (hi : 0 < i) :
    cleanRaw l = truncClose l i := by
  unfold cleanRaw
  rw [if_neg h, hq]
  exact if_pos hi

theorem cleanRaw_of_no_marker (l : List Char)
    (h : (pyStrip l).getLast? ≠ some '\x7d') (hq : rfindQC l = none) :
    cleanRaw l = l := by
  unfold cleanRaw
  rw [if_neg h, hq]

theorem cleanRaw_of_marker_at_zero (l : List Char)
    (h : (pyStrip l).getLast? ≠ some '\x7d') (hq : rfindQC l = some 0) :
    cleanRaw l = l := by
  unfold cleanRaw
  rw [if_neg h, hq]
  rfl

/-! ## Claim C1 -/

/-- C1 counterexample.  The claim says ReportRepair turns the raw text
`{"a":"x","b":"y"` into the structured report `{"a":"x","b":"y"}`.  In
fact the repair keeps the raw wrapper: the result of the repair is the
original `raw_response` wrapper, which is not that structured object. -/
theorem c1_truncation_repair_keeps_wrapper :
    repairE (wrapRaw "\x7b\"a\":\"x\",\"b\":\"y\"")
      = Except.ok (wrapRaw "\x7b\"a\":\"x\",\"b\":\"y\"") ∧
    wrapRaw "\x7b\"a\":\"x\",\"b\":\"y\""
      ≠ Json.obj [("a", Json.str "x"), ("b", Json.str "y")] :=
  ⟨rfl, fun h => absurd (congrArg objKeys h) (by decide)⟩

/-- C1 amended: applied to the raw text `{"a":"x","b":"y"`, the repair
truncates at the last `",` (after `"x"`), producing `{"a":"x",\n}`.
That text retains the field separator before the closing brace, so the
parse fails and the raw wrapper is kept — the repair does NOT succeed. -/
theorem c1_amended_fallback_on_trailing_comma :
    cleanRaw ("\x7b\"a\":\"x\",\"b\":\"y\"".data) = "\x7b\"a\":\"x\",\n\x7d".data ∧
    json_loads "\x7b\"a\":\"x\",\n\x7d" = none ∧
    repairE (wrapRaw "\x7b\"a\":\"x\",\"b\":\"y\"")
      = Except.ok (wrapRaw "\x7b\"a\":\"x\",\"b\":\"y\"") :=
  ⟨rfl, rfl, rfl⟩

/-! ## Claim C2 -/

/-- C2 counterexample.  On `{"a":"x",}`, the trimmed text ends with `}`,
its direct parse fails, and a `",` occurrence exists at positive index 7
— yet no truncate-and-close is attempted: the text handed to
`json.loads` is the unmodified raw text (`cleanRaw` is the identity
here) and the wrapper is kept.  This refutes the claim's assertion that
the truncate-and-close attempt "is also made when the text ends with `}`
but its direct parse fails". -/
theorem c2_no_truncation_when_brace_terminated :
    (pyStrip ("\x7b\"a\":\"x\",\x7d".data)).getLast? = some '\x7d' ∧
    json_loads "\x7b\"a\":\"x\",\x7d" = none ∧
    rfindQC ("\x7b\"a\":\"x\",\x7d".data) = some 7 ∧
    cleanRaw ("\x7b\"a\":\"x\",\x7d".data) = "\x7b\"a\":\"x\",\x7d".data ∧
    repairE (wrapRaw "\x7b\"a\":\"x\",\x7d")
      = Except.ok (wrapRaw "\x7b\"a\":\"x\",\x7d") :=
  ⟨rfl, rfl, rfl, rfl, rfl⟩

/-- C2 amended: the truncate-and-close is attempted exactly when the
stripped text does not end with `}` and the last `",` occurrence starts
at a positive index; a text whose stripped form ends with `}` is parsed
unmodified (even if that parse fails, in which case the wrapper is
kept), and likewise the text is parsed unmodified when there is no `",`
marker or when the last `",` starts at index 0 (`last_complete > 0`
fails). -/
theorem c2_amended_truncation_condition (raw : String) :
    ((pyStrip raw.data).getLast? = some '\x7d' →
      repairE (wrapRaw raw) = Except.ok
        (match json_loads raw with
         | some v => v
         | none => wrapRaw raw)) ∧
    ((pyStrip raw.data).getLast? ≠ some '\x7d' →
      ∀ i, rfindQC raw.data = some i → 0 < i →
        repairE (wrapRaw raw) = Except.ok
          (match json_loads_list (truncClose raw.data i) with
           | some v => v
           | none => wrapRaw raw)) ∧
    ((pyStrip raw.data).getLast? ≠ some '\x7d' → rfindQC raw.data = none →
      repairE (wrapRaw raw) = Except.ok
        (match json_loads raw with
         | some v => v
         | none => wrapRaw raw)) ∧
    ((pyStrip raw.data).getLast? ≠ some '\x7d' → rfindQC raw.data = some 0 →
      repairE (wrapRaw raw) = Except.ok
        (match json_loads raw with
         | some v => v
         | none => wrapRaw raw)) := by
  refine ⟨fun h => ?_, fun h i hq hi => ?_, fun h hq => ?_, fun h hq => ?_⟩
  · rw [repairE_wrapRaw, cleanRaw_of_closing raw.data h]; rfl
  · rw [repairE_wrapRaw, cleanRaw_of_marker raw.data i h hq hi]
  · rw [repairE_wrapRaw, cleanRaw_of_no_marker raw.data h hq]; rfl
  · rw [repairE_wrapRaw, cleanRaw_of_marker_at_zero raw.data h hq]; rfl

/-- Witness for `c2_amended_truncation_condition` at the truncated text
`{"a":"x","b":"y"`: the marker branch applies and the repair keeps the
wrapper (the truncated-and-closed text does not parse). -/
theorem c2_amended_truncation_condition_witness :
    (pyStrip ("\x7b\"a\":\"x\",\"b\":\"y\"".data)).getLast? ≠ some '\x7d' ∧
    repairE (wrapRaw "\x7b\"a\":\"x\",\"b\":\"y\"")
      = Except.ok (wrapRaw "\x7b\"a\":\"x\",\"b\":\"y\"") := by
  refine ⟨by decide, ?_⟩
  have h := (c2_amended_truncation_condition "\x7b\"a\":\"x\",\"b\":\"y\"").2.1
    (by decide) 7 (by decide) (by decide)
  rw [h]
  rfl

/-! ## Claim C3 -/

/-- C3 counterexample.  For the raw text `{"raw_response": "{}"}`, one
application of the repair parses it to the dict
`{"raw_response": "{}"}`; a second application sees the marker key
again, parses the inner `{}` and returns the empty dict — so applying
the repair twice differs from applying it once. -/
theorem c3_double_repair_differs :
    repairE (wrapRaw "\x7b\"raw_response\": \"\x7b\x7d\"\x7d")
      = Except.ok (Json.obj [("raw_response", Json.str "\x7b\x7d")]) ∧
    repairE (Json.obj [("raw_response", Json.str "\x7b\x7d")])
      = Except.ok (Json.obj []) ∧
    Json.obj [("raw_response", Json.str "\x7b\x7d")] ≠ Json.obj [] :=
  ⟨rfl, rfl, fun h => absurd (congrArg objKeys h) (by decide)⟩

/-- C3 amended: any report that is not a `raw_response`-keyed dict passes
through the repair unchanged; consequently repairing twice agrees with
repairing once whenever the first result is not itself such a wrapper
(the counterexample shows the unrestricted statement fails). -/
theorem c3_amended_idempotent_outside_wrapper (r r1 : Json) :
    (isRawWrapper r = false → repairE r = Except.ok r) ∧
    (repairE r = Except.ok r1 → isRawWrapper r1 = false →
      repairE r1 = Except.ok r1) := by
  have base : ∀ s : Json, isRawWrapper s = false → repairE s = Except.ok s := by
    intro s hs
    cases s with
    | obj kvs =>
      simp only [isRawWrapper] at hs
      simp only [repairE]
      cases hl : lookupField kvs "raw_response" with
      | none => rfl
      | some v => rw [hl] at hs; simp at hs
    | null => rfl
    | bool b => rfl
    | num s => rfl
    | str s => rfl
    | arr l => rfl
  exact ⟨base r, fun _ h1 => base r1 h1⟩

/-- Witness for `c3_amended_idempotent_outside_wrapper` at the
structured report `{"a": "x"}`. -/
theorem c3_amended_idempotent_outside_wrapper_witness :
    isRawWrapper (Json.obj [("a", Json.str "x")]) = false ∧
    repairE (Json.obj [("a", Json.str "x")])
      = Except.ok (Json.obj [("a", Json.str "x")]) :=
  ⟨rfl, (c3_amended_idempotent_outside_wrapper
    (Json.obj [("a", Json.str "x")]) Json.null).1 rfl⟩

/-! ## Claim C4 -/

/-- C4 counterexample.  The engine call succeeds, returning the raw-text
wrapper `{"raw_response": "3"}`.  The repair parses `"3"` to the number
3, which is not a dict; the summary's `.get` calls then raise
`AttributeError`, and the endpoint answers 500 — refuting "if the engine
call itself succeeded then /analyze returns HTTP 200". -/
theorem c4_engine_success_yet_500 :
    (analyze true (Json.obj [("notes", Json.str "fever")]) (fun _ => false)
      (Except.ok (EngineOut.mk (wrapRaw "3") Json.null))).1 = 500 :=
  rfl

/-- C4 amended: when the engine call succeeds AND the repair stage yields
(without raising) a report that is a dict — which covers both parse
success to an object and the raw-fallback wrapper — the endpoint
answers 200 with `success: true` and that report in the body.  In
particular raw text with no `",` anywhere (e.g. `{"a":1`) keeps the
raw-fallback wrapper inside a 200 response. -/
theorem c4_amended_dict_report_yields_200 (kvs : List (String × Json)) (s : String)
    (dec : String → Bool) (out : EngineOut) (rkvs : List (String × Json))
    (hn : lookupField kvs "notes" = some (Json.str s))
    (hne : pyStrip s.data ≠ [])
    (hi : lookupField kvs "image" = none)
    (hr : repairE out.final_report = Except.ok (Json.obj rkvs)) :
    (analyze true (Json.obj kvs) dec (Except.ok out)).1 = 200 ∧
    envLookup (analyze true (Json.obj kvs) dec (Except.ok out)).2 "success"
      = some (Json.bool true) ∧
    envLookup (analyze true (Json.obj kvs) dec (Except.ok out)).2 "report"
      = some (Json.obj rkvs) := by
  have hstep : analyze true (Json.obj kvs) dec (Except.ok out)
      = (200, successEnvelope ((lookupField kvs "mode").getD (Json.str "text-only"))
          false (Json.obj rkvs) out.panel_trace (summaryObj rkvs)) := by
    simp [analyze, analyzeTry, analyzeObj, getDField, hn, hne, afterNotes,
      imageOutcome, hi, truthy, afterImage, hr]
  rw [hstep]
  exact ⟨rfl, rfl, rfl⟩

/-- Witness for `c4_amended_dict_report_yields_200`: the engine returns
raw text `{"a":1` with no `",` anywhere; the repair fails to parse it,
the wrapper is kept as the raw-fallback report, and the response is a
200 carrying it. -/
theorem c4_amended_dict_report_yields_200_witness :
    (analyze true (Json.obj [("notes", Json.str "fever")]) (fun _ => false)
      (Except.ok (EngineOut.mk (wrapRaw "\x7b\"a\":1") Json.null))).1 = 200 ∧
    envLookup (analyze true (Json.obj [("notes", Json.str "fever")]) (fun _ => false)
      (Except.ok (EngineOut.mk (wrapRaw "\x7b\"a\":1") Json.null))).2 "success"
      = some (Json.bool true) ∧
    envLookup (analyze true (Json.obj [("notes", Json.str "fever")]) (fun _ => false)
      (Except.ok (EngineOut.mk (wrapRaw "\x7b\"a\":1") Json.null))).2 "report"
      = some (Json.obj [("raw_response", Json.str "\x7b\"a\":1")]) :=
  c4_amended_dict_report_yields_200 [("notes", Json.str "fever")] "fever"
    (fun _ => false) (EngineOut.mk (wrapRaw "\x7b\"a\":1") Json.null)
    [("raw_response", Json.str "\x7b\"a\":1")] rfl (by decide) rfl rfl

/-! ## Claim C5 -/

/-- C5: when the `notes` field is a string that strips to empty, the
handler returns the fixed 400 "Clinical notes are required" response
(`success: false` plus a human-readable message).  The result is a
constant independent of the engine argument `eng`, so the engine is
observably not invoked on such a request. -/
theorem c5_empty_notes_400_before_engine (kvs : List (String × Json)) (s : String)
    (dec : String → Bool) (eng : Except PyExc EngineOut)
    (hn : lookupField kvs "notes" = some (Json.str s))
    (hws : pyStrip s.data = []) :
    analyze true (Json.obj kvs) dec eng = notesRequired400 := by
  simp [analyze, analyzeTry, analyzeObj, getDField, hn, hws]

/-- Witness for `c5_empty_notes_400_before_engine` at whitespace-only
notes and an engine that would blow up if consulted. -/
theorem c5_empty_notes_400_before_engine_witness :
    pyStrip " \t ".data = [] ∧
    analyze true (Json.obj [("notes", Json.str " \t ")]) (fun _ => true)
      (Except.error (PyExc.mk "EngineError" "must not be reached"))
      = notesRequired400 :=
  ⟨rfl, c5_empty_notes_400_before_engine [("notes", Json.str " \t ")] " \t "
    (fun _ => true) (Except.error (PyExc.mk "EngineError" "must not be reached"))
    rfl rfl⟩

/-! ## Claim C6 -/

/-- C6 counterexample.  When the engine raises, line 200 puts
`str(e)` — the raw exception detail — into the response body's `error`
field; here the exception message `division by zero` is echoed verbatim
to the client, refuting "raw exception detail ... never appear[s] in
the body". -/
theorem c6_raw_exception_detail_reaches_body :
    envLookup (analyze true (Json.obj [("notes", Json.str "fever")]) (fun _ => false)
        (Except.error (PyExc.mk "RuntimeError" "division by zero"))).2 "error"
      = some (Json.str "division by zero") :=
  rfl

/-- C6 amended: an unclassified engine failure yields status 500 with a
body of exactly the four fields `success` (false), `error` (the
exception's own message, `str(e)` — so raw exception detail IS echoed,
contrary to the original claim), `error_type` (the exception class
name, non-empty whenever the class name is), and a fixed human
message.  Because the body is exactly these fields, the stack trace and
the caller's notes/image data do not appear in it; the full traceback
is only printed server-side. -/
theorem c6_amended_engine_error_500_tagged (kvs : List (String × Json)) (s : String)
    (dec : String → Bool) (e : PyExc)
    (hn : lookupField kvs "notes" = some (Json.str s))
    (hne : pyStrip s.data ≠ [])
    (hi : lookupField kvs "image" = none)
    (hname : e.name ≠ "") :
    analyze true (Json.obj kvs) dec (Except.error e) = errorBody500 e ∧
    (errorBody500 e).1 = 500 ∧
    envLookup (errorBody500 e).2 "success" = some (Json.bool false) ∧
    envLookup (errorBody500 e).2 "error_type" = some (Json.str e.name) ∧
    e.name ≠ "" ∧
    envLookup (errorBody500 e).2 "error" = some (Json.str e.msg) ∧
    objKeys (errorBody500 e).2 = ["success", "error", "error_type", "message"] := by
  refine ⟨?_, rfl, rfl, rfl, hname, rfl, rfl⟩
  simp [analyze, analyzeTry, analyzeObj, getDField, hn, hne, afterNotes,
    imageOutcome, hi, truthy, afterImage]

/-- Witness for `c6_amended_engine_error_500_tagged` at a concrete
engine failure. -/
theorem c6_amended_engine_error_500_tagged_witness :
    analyze true (Json.obj [("notes", Json.str "fever")]) (fun _ => false)
      (Except.error (PyExc.mk "ValueError" "bad tensor"))
      = errorBody500 (PyExc.mk "ValueError" "bad tensor") ∧
    envLookup (errorBody500 (PyExc.mk "ValueError" "bad tensor")).2 "error_type"
      = some (Json.str "ValueError") :=
  ⟨(c6_amended_engine_error_500_tagged [("notes", Json.str "fever")] "fever"
      (fun _ => false) (PyExc.mk "ValueError" "bad tensor") rfl (by decide) rfl
      (by decide)).1, rfl⟩

/-! ## Structure of every 200 response -/

/-- Any 200 response comes from the single success return (line 190):
the body is `successEnvelope` built from the request's explicit `mode`
(or its image-dependent default), the `image_provided` flag, the
repaired dict report, the engine's trace, and the summary. -/
theorem analyze_200_shape (isJson : Bool) (data : Json) (dec : String → Bool)
    (eng : Except PyExc EngineOut)
    (h : (analyze isJson data dec eng).1 = 200) :
    ∃ kvs imgp out rkvs,
      data = Json.obj kvs ∧
      eng = Except.ok out ∧
      imageOutcome kvs dec = some imgp ∧
      repairE out.final_report = Except.ok (Json.obj rkvs) ∧
      analyze isJson data dec eng =
        (200, successEnvelope ((lookupField kvs "mode").getD
            (Json.str (if imgp then "full" else "text-only")))
          imgp (Json.obj rkvs) out.panel_trace (summaryObj rkvs)) := by
  by_cases hj : isJson = true
  case neg =>
    exfalso
    rw [show isJson = false by simpa using hj] at h
    simp [analyze, analyzeTry, notJson400] at h
  subst hj
  cases data with
  | null => exfalso; simp [analyze, analyzeTry, errorBody500] at h
  | bool b => exfalso; simp [analyze, analyzeTry, errorBody500] at h
  | num s => exfalso; simp [analyze, analyzeTry, errorBody500] at h
  | str s => exfalso; simp [analyze, analyzeTry, errorBody500] at h
  | arr l => exfalso; simp [analyze, analyzeTry, errorBody500] at h
  | obj kvs =>
    cases hn : getDField kvs "notes" (Json.str "") with
    | null => exfalso; simp [analyze, analyzeTry, analyzeObj, hn, errorBody500] at h
    | bool b => exfalso; simp [analyze, analyzeTry, analyzeObj, hn, errorBody500] at h
    | num s => exfalso; simp [analyze, analyzeTry, analyzeObj, hn, errorBody500] at h
    | arr l => exfalso; simp [analyze, analyzeTry, analyzeObj, hn, errorBody500] at h
    | obj o => exfalso; simp [analyze, analyzeTry, analyzeObj, hn, errorBody500] at h
    | str notesRaw =>
      by_cases hs : pyStrip notesRaw.data = []
      · exfalso
        simp [analyze, analyzeTry, analyzeObj, hn, hs, notesRequired400] at h
      · cases hio : imageOutcome kvs dec with
        | none =>
          exfalso
          simp [analyze, analyzeTry, analyzeObj, hn, hs, afterNotes, hio,
            invalidImage400] at h
        | some imgp =>
          cases eng with
          | error e =>
            exfalso
            simp [analyze, analyzeTry, analyzeObj, hn, hs, afterNotes, hio,
              afterImage, errorBody500] at h
          | ok out =>
            rcases hr : repairE out.final_report with e | rep
            · exfalso
              simp [analyze, analyzeTry, analyzeObj, hn, hs, afterNotes, hio,
                afterImage, hr, errorBody500] at h
            · cases rep with
              | obj rkvs =>
                refine ⟨kvs, imgp, out, rkvs, rfl, rfl, hio, hr, ?_⟩
                simp [analyze, analyzeTry, analyzeObj, hn, hs, afterNotes, hio,
                  afterImage, hr]
              | null =>
                exfalso
                simp [analyze, analyzeTry, analyzeObj, hn, hs, afterNotes, hio,
                  afterImage, hr, errorBody500] at h
              | bool b =>
                exfalso
                simp [analyze, analyzeTry, analyzeObj, hn, hs, afterNotes, hio,
                  afterImage, hr, errorBody500] at h
              | num s2 =>
                exfalso
                simp [analyze, analyzeTry, analyzeObj, hn, hs, afterNotes, hio,
                  afterImage, hr, errorBody500] at h
              | str s2 =>
                exfalso
                simp [analyze, analyzeTry, analyzeObj, hn, hs, afterNotes, hio,
                  afterImage, hr, errorBody500] at h
              | arr l2 =>
                exfalso
                simp [analyze, analyzeTry, analyzeObj, hn, hs, afterNotes, hio,
                  afterImage, hr, errorBody500] at h

theorem lookupField_removeField_self (kvs : List (String × Json)) (key : String) :
    lookupField (removeField kvs key) key = none := by
  induction kvs with
  | nil => rfl
  | cons p rest ih =>
    obtain ⟨k1, v1⟩ := p
    by_cases h : k1 = key
    · simp [removeField, h, ih]
    · simp [removeField, lookupField, h, ih]

theorem lookupField_removeField_ne (kvs : List (String × Json)) (key key2 : String)
    (hne : key2 ≠ key) :
    lookupField (removeField kvs key) key2 = lookupField kvs key2 := by
  induction kvs with
  | nil => rfl
  | cons p rest ih =>
    obtain ⟨k1, v1⟩ := p
    by_cases h : k1 = key
    · subst h
      simp [removeField, lookupField, ih, Ne.symm hne]
    · simp [removeField, lookupField, h, ih]

/-- The handler reads the request dict only through the `notes`,
`image` and `mode` fields. -/
theorem analyzeObj_congr (kvs kvs2 : List (String × Json)) (dec dec2 : String → Bool)
    (eng : Except PyExc EngineOut)
    (h1 : lookupField kvs "notes" = lookupField kvs2 "notes")
    (h2 : imageOutcome kvs dec = imageOutcome kvs2 dec2)
    (h3 : lookupField kvs "mode" = lookupField kvs2 "mode") :
    analyzeObj kvs dec eng = analyzeObj kvs2 dec2 eng := by
  unfold analyzeObj afterNotes getDField
  rw [h1, h2, h3]

/-! ## Claim C7 -/

/-- C7: in every 200 response, an explicitly supplied `mode` is kept
unchanged; with no explicit `mode`, the response's `mode` is `"full"`
exactly when the image stage decoded an image, and `"text-only"`
whenever no `image` field was supplied. -/
theorem c7_mode_determination (kvs : List (String × Json)) (dec : String → Bool)
    (eng : Except PyExc EngineOut)
    (h200 : (analyze true (Json.obj kvs) dec eng).1 = 200) :
    (∀ m, lookupField kvs "mode" = some m →
      envLookup (analyze true (Json.obj kvs) dec eng).2 "mode" = some m) ∧
    (lookupField kvs "mode" = none →
      ((envLookup (analyze true (Json.obj kvs) dec eng).2 "mode" = some (Json.str "full")
          ↔ imageOutcome kvs dec = some true) ∧
       (lookupField kvs "image" = none →
         envLookup (analyze true (Json.obj kvs) dec eng).2 "mode"
           = some (Json.str "text-only")))) := by
  obtain ⟨kvs0, imgp, out, rkvs, hdata, heng, hio, hr, hEq⟩ :=
    analyze_200_shape true (Json.obj kvs) dec eng h200
  injection hdata with hk
  subst hk
  constructor
  · intro m hm
    rw [hEq, hm]
    rfl
  · intro hnone
    rw [hEq, hnone]
    constructor
    · constructor
      · intro hfull
        cases imgp with
        | true => exact hio
        | false =>
          exfalso
          simp [successEnvelope, envLookup, lookupField] at hfull
      · intro himg
        rw [hio] at himg
        injection himg with hb
        subst hb
        rfl
    · intro hi
      have hfalse : imageOutcome kvs dec = some false := by
        simp [imageOutcome, getDField, hi, truthy]
      rw [hfalse] at hio
      injection hio with hb
      rw [← hb]
      rfl

/-- Witness for `c7_mode_determination`: an explicit `mode` value is
passed through verbatim into a 200 response. -/
theorem c7_mode_determination_witness :
    envLookup (analyze true
      (Json.obj [("notes", Json.str "n"), ("mode", Json.str "custom")])
      (fun _ => false) (Except.ok (EngineOut.mk (Json.obj []) Json.null))).2 "mode"
      = some (Json.str "custom") :=
  (c7_mode_determination [("notes", Json.str "n"), ("mode", Json.str "custom")]
    (fun _ => false) (Except.ok (EngineOut.mk (Json.obj []) Json.null)) rfl).1
    (Json.str "custom") rfl

/-! ## Claim C8 -/

/-- C8: every 200 response carries a dict report and the summary built
from it by the defensive `.get` reads; the summary keys `diagnosis`,
`confidence`, `escalate` (and `reason`) are always present, and each
takes its default (`"N/A"`, `"N/A"`, `false`, `""`) whenever the report
lacks the corresponding field. -/
theorem c8_summary_defaults (isJson : Bool) (data : Json) (dec : String → Bool)
    (eng : Except PyExc EngineOut)
    (h200 : (analyze isJson data dec eng).1 = 200) :
    ∃ rkvs,
      envLookup (analyze isJson data dec eng).2 "report" = some (Json.obj rkvs) ∧
      envLookup (analyze isJson data dec eng).2 "summary" = some (summaryObj rkvs) ∧
      envLookup (summaryObj rkvs) "diagnosis"
        = some (getDField rkvs "primary_diagnosis" (Json.str "N/A")) ∧
      envLookup (summaryObj rkvs) "confidence"
        = some (getDField rkvs "panel_agreement_score" (Json.str "N/A")) ∧
      envLookup (summaryObj rkvs) "escalate"
        = some (getDField rkvs "escalate_to_human" (Json.bool false)) ∧
      envLookup (summaryObj rkvs) "reason"
        = some (getDField rkvs "escalation_reason" (Json.str "")) ∧
      (lookupField rkvs "primary_diagnosis" = none →
        envLookup (summaryObj rkvs) "diagnosis" = some (Json.str "N/A")) ∧
      (lookupField rkvs "panel_agreement_score" = none →
        envLookup (summaryObj rkvs) "confidence" = some (Json.str "N/A")) ∧
      (lookupField rkvs "escalate_to_human" = none →
        envLookup (summaryObj rkvs) "escalate" = some (Json.bool false)) ∧
      (lookupField rkvs "escalation_reason" = none →
        envLookup (summaryObj rkvs) "reason" = some (Json.str "")) := by
  obtain ⟨kvs, imgp, out, rkvs, hdata, heng, hio, hr, hEq⟩ :=
    analyze_200_shape isJson data dec eng h200
  refine ⟨rkvs, ?_, ?_, rfl, rfl, rfl, rfl,
    fun hmiss => ?_, fun hmiss => ?_, fun hmiss => ?_, fun hmiss => ?_⟩
  · rw [hEq]; rfl
  · rw [hEq]; rfl
  · simp [summaryObj, envLookup, lookupField, getDField, hmiss]
  · simp [summaryObj, envLookup, lookupField, getDField, hmiss]
  · simp [summaryObj, envLookup, lookupField, getDField, hmiss]
  · simp [summaryObj, envLookup, lookupField, getDField, hmiss]

/-- Witness for `c8_summary_defaults`: the engine returns the empty dict
as report, so every summary key takes its default. -/
theorem c8_summary_defaults_witness :
    ∃ rkvs,
      envLookup (analyze true (Json.obj [("notes", Json.str "fever")]) (fun _ => false)
        (Except.ok (EngineOut.mk (Json.obj []) Json.null))).2 "report"
        = some (Json.obj rkvs) ∧
      envLookup (summaryObj rkvs) "diagnosis" = some (Json.str "N/A") ∧
      envLookup (summaryObj rkvs) "escalate" = some (Json.bool false) := by
  obtain ⟨rkvs, h1, _, _, _, _, _, h7, _, h9, _⟩ :=
    c8_summary_defaults true (Json.obj [("notes", Json.str "fever")]) (fun _ => false)
      (Except.ok (EngineOut.mk (Json.obj []) Json.null)) rfl
  have hc : envLookup (analyze true (Json.obj [("notes", Json.str "fever")]) (fun _ => false)
      (Except.ok (EngineOut.mk (Json.obj []) Json.null))).2 "report"
      = some (Json.obj ([] : List (String × Json))) := rfl
  have hobj := Option.some.inj (h1.symm.trans hc)
  injection hobj with hrk
  subst hrk
  exact ⟨[], h1, h7 rfl, h9 rfl⟩

/-! ## Claim C9 -/

/-- C9: every 200 response body has exactly the top-level keys
`success, mode, image_analyzed, report, trace, summary` (in that
order), regardless of what the engine's report looked like, and the
`trace` value is the engine's `panel_trace` passed through unmodified. -/
theorem c9_envelope_shape (isJson : Bool) (data : Json) (dec : String → Bool)
    (eng : Except PyExc EngineOut)
    (h200 : (analyze isJson data dec eng).1 = 200) :
    objKeys (analyze isJson data dec eng).2
      = ["success", "mode", "image_analyzed", "report", "trace", "summary"] ∧
    ∃ out, eng = Except.ok out ∧
      envLookup (analyze isJson data dec eng).2 "trace" = some out.panel_trace := by
  obtain ⟨kvs, imgp, out, rkvs, hdata, heng, hio, hr, hEq⟩ :=
    analyze_200_shape isJson data dec eng h200
  refine ⟨?_, out, heng, ?_⟩
  · rw [hEq]; rfl
  · rw [hEq]; rfl

/-- Witness for `c9_envelope_shape` at a concrete 200 response. -/
theorem c9_envelope_shape_witness :
    objKeys (analyze true (Json.obj [("notes", Json.str "fever")]) (fun _ => false)
      (Except.ok (EngineOut.mk (Json.obj []) (Json.arr [Json.str "step1"])))).2
      = ["success", "mode", "image_analyzed", "report", "trace", "summary"] :=
  (c9_envelope_shape true (Json.obj [("notes", Json.str "fever")]) (fun _ => false)
    (Except.ok (EngineOut.mk (Json.obj []) (Json.arr [Json.str "step1"]))) rfl).1

/-! ## Claim C10 -/

/-- C10 (implicit): a present-but-falsy `image` field (empty string,
null, false, ...) is treated exactly as if absent: the whole response
is identical to the response for the same request with the field
removed, the decode oracle is never consulted (the response does not
depend on it), and a 200 response has `image_analyzed = false` with
default mode `"text-only"` when no explicit mode was given. -/
theorem c10_falsy_image_ignored (isJson : Bool) (kvs : List (String × Json)) (v : Json)
    (dec dec2 : String → Bool) (eng : Except PyExc EngineOut)
    (hv : lookupField kvs "image" = some v)
    (hf : truthy v = false) :
    analyze isJson (Json.obj kvs) dec eng
      = analyze isJson (Json.obj (removeField kvs "image")) dec eng ∧
    analyze isJson (Json.obj kvs) dec eng = analyze isJson (Json.obj kvs) dec2 eng ∧
    ((analyze isJson (Json.obj kvs) dec eng).1 = 200 →
      envLookup (analyze isJson (Json.obj kvs) dec eng).2 "image_analyzed"
        = some (Json.bool false) ∧
      (lookupField kvs "mode" = none →
        envLookup (analyze isJson (Json.obj kvs) dec eng).2 "mode"
          = some (Json.str "text-only"))) := by
  have hioF : imageOutcome kvs dec = some false := by
    simp [imageOutcome, getDField, hv, hf]
  have hio2 : imageOutcome kvs dec2 = some false := by
    simp [imageOutcome, getDField, hv, hf]
  have hioR : imageOutcome (removeField kvs "image") dec = some false := by
    simp [imageOutcome, getDField, lookupField_removeField_self, truthy]
  refine ⟨?_, ?_, ?_⟩
  · have hc := analyzeObj_congr kvs (removeField kvs "image") dec dec eng
      (lookupField_removeField_ne kvs "image" "notes" (by decide)).symm
      (hioF.trans hioR.symm)
      (lookupField_removeField_ne kvs "image" "mode" (by decide)).symm
    simp [analyze, analyzeTry, hc]
  · have hc := analyzeObj_congr kvs kvs dec dec2 eng rfl (hioF.trans hio2.symm) rfl
    simp [analyze, analyzeTry, hc]
  · intro h200
    obtain ⟨kvs0, imgp, out, rkvs, hdata, heng, hio, hr, hEq⟩ :=
      analyze_200_shape isJson (Json.obj kvs) dec eng h200
    injection hdata with hk
    subst hk
    have himgp : imgp = false := Option.some.inj (hio.symm.trans hioF)
    subst himgp
    constructor
    · rw [hEq]; rfl
    · intro hm
      rw [hEq, hm]
      rfl

/-- Witness for `c10_falsy_image_ignored`: an empty-string `image`
yields the same response as the request without the field. -/
theorem c10_falsy_image_ignored_witness :
    truthy (Json.str "") = false ∧
    analyze true (Json.obj [("notes", Json.str "n"), ("image", Json.str "")])
      (fun _ => true) (Except.ok (EngineOut.mk (Json.obj []) Json.null))
      = analyze true
        (Json.obj (removeField [("notes", Json.str "n"), ("image", Json.str "")] "image"))
        (fun _ => true) (Except.ok (EngineOut.mk (Json.obj []) Json.null)) :=
  ⟨rfl, (c10_falsy_image_ignored true [("notes", Json.str "n"), ("image", Json.str "")]
    (Json.str "") (fun _ => true) (fun _ => false)
    (Except.ok (EngineOut.mk (Json.obj []) Json.null)) rfl rfl).1⟩
